import Mathlib

/-!
Verification of two modules of the thingsboard-gateway fragment:

* `thingsboard_gateway/tb_utility/tb_logger.py` — `TbLogger`, a logging
  facility with a process-wide error counter (`TbLogger.ALL_ERRORS_COUNT`),
  per-instance counters (`self.errors`), a background debounce/rollover
  thread (`_processing_errors`), and a flush path (`_send_error_count`).
* `thingsboard_gateway/connectors/opcua/opcua_uplink_converter.py` —
  `OpcUaUplinkConverter`, converting OPC UA data values into telemetry and
  attribute batches.

All definitions are shallow embeddings translated from the Python source.
External-library objects (asyncua data values, datetimes, node ids) are
carried abstractly through the observations the source code makes of them.
-/

/-! ## Error counter algebra (tb_logger.py lines 95-101, 147-174)

The process state relevant to the counters is `TbLogger.ALL_ERRORS_COUNT`
(a Python int, class-level, shared by all instances) and the `self.errors`
counter of each live instance.  An instance counter starts at 0, is only
incremented by 1 (`_add_error`, called by both `error()` and `exception()`)
and set back to 0 (`reset`), so it is embedded as a `Nat`; the global
counter is a Python int that gets subtracted from, so it is an `Int`.
Live instances are held as a list, indexed by position. -/

structure LoggerSys where
  all_errors_count : Int
  errors : List Nat
  deriving Repr, DecidableEq

/-- Embedding of `TbLogger._add_error` (lines 172-174) performed on instance
`i`: `TbLogger.ALL_ERRORS_COUNT += 1; self.errors += 1`.  Both `error()`
(line 156) and `exception()` (line 168) call it exactly once per invocation,
after the underlying log write.  An index outside the live list leaves the
state unchanged (no such call exists in the program). -/
def add_error (s : LoggerSys) (i : Nat) : LoggerSys :=
  if i < s.errors.length then
    { all_errors_count := s.all_errors_count + 1
      errors := s.errors.set i (s.errors.getD i 0 + 1) }
  else s

/-- Embedding of the counter part of `TbLogger.reset` (lines 95-101) on
instance `i`: `TbLogger.ALL_ERRORS_COUNT = TbLogger.ALL_ERRORS_COUNT -
self.errors; self.errors = 0` (the subsequent `_send_error_count()` does not
touch the counters).  An index outside the live list leaves the state
unchanged. -/
def reset_counters (s : LoggerSys) (i : Nat) : LoggerSys :=
  if i < s.errors.length then
    { all_errors_count := s.all_errors_count - (s.errors.getD i 0 : Int)
      errors := s.errors.set i 0 }
  else s

/-- Embedding of `TbLogger.__init__` line 84 (`self.errors = 0`): a new live
instance joins the system with a zero counter; the global counter is not
touched by construction. -/
def new_logger (s : LoggerSys) : LoggerSys :=
  { s with errors := s.errors ++ [0] }

/-- Counter events of the program: constructing a logger, an
`error()`/`exception()` call on instance `i`, and a `reset()` on instance
`i` (`reset` is also what the rollover branch and `stop()` run). -/
inductive LogOp where
  | newL : LogOp
  | err (i : Nat) : LogOp
  | res (i : Nat) : LogOp
  deriving Repr, DecidableEq

def applyOp (s : LoggerSys) : LogOp → LoggerSys
  | .newL => new_logger s
  | .err i => add_error s i
  | .res i => reset_counters s i

def runOps (s : LoggerSys) : List LogOp → LoggerSys
  | [] => s
  | op :: ops => runOps (applyOp s op) ops

/-- Quiescent-point invariant of the spec: the global total equals the sum
of all live instances' counters. -/
def sumInv (s : LoggerSys) : Prop :=
  s.all_errors_count = (s.errors.sum : Int)

instance (s : LoggerSys) : Decidable (sumInv s) := by
  unfold sumInv; infer_instance

/-! ## Background thread tick machine (tb_logger.py lines 130-140)

One iteration of the `_processing_errors` loop body, for one instance,
with `monotonic()` passed in as `now`.  The mutable state it reads and
writes: `self.errors`, `TbLogger.ALL_ERRORS_COUNT`,
`self.__previous_number_of_errors` (initialised to `-1`, hence an `Int`),
`self.__previous_errors_sent_time` (set in `__init__` line 72 and never
written again anywhere in the file), `self._start_time`, and
`self._stopped`.  Flushes performed by `_send_error_count` when the
transport is connected are recorded in `sent` as
`(time, instance counter, global counter)` triples, which is exactly the
payload of line 186-187. -/

structure TickState where
  errors : Int
  all_errors : Int
  prevNum : Int
  prevSentTime : Int
  startTime : Int
  stopped : Bool
  sent : List (Int × Int × Int)
  deriving Repr, DecidableEq

/-- Condition of the debounce branch (lines 132-133):
`self.__previous_number_of_errors != self.errors and monotonic() -
self.__previous_errors_sent_time >= TbLogger.SEND_ERRORS_PERIOD` with
`SEND_ERRORS_PERIOD = 5`. -/
def flushCond (s : TickState) (now : Int) : Bool :=
  decide (s.prevNum ≠ s.errors) && decide (now - s.prevSentTime ≥ 5)

/-- Condition of the rollover branch guard (line 136):
`monotonic() - self._start_time >= TbLogger.RESET_ERRORS_PERIOD` with
`RESET_ERRORS_PERIOD = 60`. -/
def rolloverCond (s : TickState) (now : Int) : Bool :=
  decide (now - s.startTime ≥ 60)

/-- Embedding of `TbLogger.reset` (lines 95-101) on the tick state: the
counter updates followed by the `_send_error_count()` flush of the zeroed
value at time `now`. -/
def resetFlush (s : TickState) (now : Int) : TickState :=
  { s with
    all_errors := s.all_errors - s.errors
    errors := 0
    sent := s.sent ++ [(now, 0, s.all_errors - s.errors)] }

/-- One iteration of the `_processing_errors` loop body (lines 131-140):
the loop runs only while not stopped; the debounce branch records the sent
counter value in `__previous_number_of_errors` and flushes, the `elif`
rollover branch calls `reset()` and restarts `_start_time`.  Note that
`__previous_errors_sent_time` is not updated by either branch. -/
def tick (s : TickState) (now : Int) : TickState :=
  if s.stopped then s
  else if flushCond s now then
    { s with
      prevNum := s.errors
      sent := s.sent ++ [(now, s.errors, s.all_errors)] }
  else if rolloverCond s now then
    { resetFlush s now with startTime := now }
  else s

/-- Embedding of `_add_error` on the tick state, as performed by a caller
thread between ticks (an `error()`/`exception()` call). -/
def bumpError (s : TickState) : TickState :=
  { s with errors := s.errors + 1, all_errors := s.all_errors + 1 }

/-- Tick state right after `__init__` at monotonic time `t0` (lines 70-72,
84, 90): `errors = 0`, `__previous_number_of_errors = -1`,
`__previous_errors_sent_time = t0`, `_start_time = t0`, not stopped. -/
def initTickState (t0 : Int) (allErrors : Int) : TickState :=
  { errors := 0, all_errors := allErrors, prevNum := -1,
    prevSentTime := t0, startTime := t0, stopped := false, sent := [] }

/-! ## The flush wait loop (tb_logger.py lines 176-178)

`_send_error_count` begins with `while self._is_on_init_state: sleep(.2)`.
`_is_on_init_state` is cleared (line 128) only at the end of
`_send_errors`, which itself blocks until the gateway object exists and has
a `tb_client` attribute (lines 118-123).  The wait loop is embedded over
the trace of values the `_is_on_init_state` flag takes at successive polls:
`stopFlushWaitExitsWithin flag k fuel` decides whether the loop, polling
from index `k` on, exits within `fuel` further polls.  The source contains
no timeout. -/

def stopFlushWaitExitsWithin (flag : Nat → Bool) : Nat → Nat → Bool
  | _, 0 => false
  | k, fuel + 1 => if flag k then stopFlushWaitExitsWithin flag (k + 1) fuel else true

/-- Termination of the wait loop at the head of `_send_error_count`, hence
of the flush that `stop()` (lines 103-105) performs synchronously through
`reset()`: the loop exits within some finite number of polls. -/
def stopFlushTerminates (flag : Nat → Bool) : Prop :=
  ∃ fuel, stopFlushWaitExitsWithin flag 0 fuel = true

/-! ## OPC UA uplink converter (opcua_uplink_converter.py)

`process_datapoint` (lines 54-82) converts one `(config, DataValue)` pair;
`convert` (lines 84-117) batches a zipped sequence of such pairs.  Python
exceptions are embedded as `Except String`; the external asyncua objects
are carried through the observations the handlers make of them. -/

/-- Variant type tags appearing as keys of `VARIANT_TYPE_HANDLERS`
(lines 31-44), plus `Other` standing for every tag absent from the table
(numeric, boolean and string variants), which the `dict.get` default on
line 62 handles. -/
inductive VariantType where
  | ExtensionObject | DateTime | StatusCode | QualifiedName | NodeId
  | ExpandedNodeId | ByteString | XmlElement | Guid | DiagnosticInfo
  | Null | Other
  deriving Repr, DecidableEq

/-- Whether a tag is a key of `VARIANT_TYPE_HANDLERS` (lines 31-44). -/
def inHandlerTable : VariantType → Bool
  | .Other => false
  | _ => true

/-- Embedding of the raw payload `val.Value.Value`.  A list payload is
carried by the `str(item)` rendering of its items (line 60).  A non-list
payload is an external object carried by what the handler bodies observe of
it: `typed vt` is the outcome of the type-specific handler body for tag
`vt` (`.isoformat()`, `.name`, `.to_string()`, `.hex()`, `.decode()`,
`str(...)` — a string, or the exception it raises), and `dflt` is the
outcome of the default handler on line 62
(`str(d) if not hasattr(d, 'to_string') else d.to_string()`).
The `VariantType.Null` handler (line 43) returns `None` regardless of the
payload and is embedded directly in `canonicalize`. -/
inductive PyVal where
  | pyList (items : List String)
  | pyObj (typed : VariantType → Except String String) (dflt : Except String String)

/-- Canonical converted value after lines 58-63: `None`, a string, or a
list of strings. -/
inductive ConvValue where
  | nullV
  | strV (s : String)
  | listStrV (items : List String)
  deriving Repr, DecidableEq

/-- Embedding of lines 58-63: list payloads bypass the dispatch and map
`str` over the items; otherwise the handler selected by
`VARIANT_TYPE_HANDLERS.get(val.Value.VariantType, default)` is applied —
the `Null` handler yields `None`, the other table handlers yield their
type-specific rendering, absent tags fall to the default handler. -/
def canonicalize (v : PyVal) (vt : VariantType) : Except String ConvValue :=
  match v with
  | .pyList items => .ok (.listStrV items)
  | .pyObj typed dflt =>
    if vt = .Null then .ok .nullV
    else if inHandlerTable vt then (typed vt).map .strV
    else dflt.map .strV

/-- Embedding of the asyncua status code as observed by the source:
`val.StatusCode.name` (symbolic code), `val.StatusCode.doc` (description),
and the result of `val.StatusCode.is_bad()`. -/
structure UaStatusCode where
  name : String
  doc : String
  is_bad : Bool
  deriving Repr, DecidableEq

/-- Embedding of the value envelope `val` as read by `process_datapoint`:
`val.Value.Value` and `val.Value.VariantType` (lines 58, 62),
`val.StatusCode` (lines 65-66), `val.data_type` — the node identity the
diagnostic message prints (line 66) — and the optional
`val.SourceTimestamp` / `val.ServerTimestamp`, each carried, when present,
by the value of `.timestamp() * 1000` in epoch milliseconds
(lines 71-74). -/
structure DataValue where
  value : PyVal
  variantType : VariantType
  statusCode : UaStatusCode
  data_type : String
  sourceTimestampMs : Option Int
  serverTimestampMs : Option Int

/-- Embedding of the per-datapoint config dict: `config['section']`
(line 76), `config['key']` (lines 78, 80) and the optional
`config.get('timestampLocation', 'gateway')` (line 69). -/
structure DpConfig where
  sect : String
  key : String
  timestampLocation : Option String
  deriving Repr, DecidableEq

/-- Section tags: the values `TELEMETRY_PARAMETER` and
`ATTRIBUTES_PARAMETER` that `DATA_TYPES` (lines 26-29) maps to. -/
inductive SectionTag where
  | telemetry | attributes
  deriving Repr, DecidableEq

/-- Embedding of the `DATA_TYPES` dict lookup `DATA_TYPES[config['section']]`
(lines 26-29, 76): `'timeseries'` and `'attributes'` are its only keys;
any other section raises `KeyError`, embedded as `none`. -/
def DATA_TYPES : String → Option SectionTag
  | "timeseries" => some .telemetry
  | "attributes" => some .attributes
  | _ => none

/-- Embedding of `ERROR_MSG_TEMPLATE` (line 46) instantiated as on line 66:
`str.format(ERROR_MSG_TEMPLATE, val.StatusCode.name, val.data_type,
val.StatusCode.doc)`. -/
def ERROR_MSG_TEMPLATE (code node doc : String) : String :=
  "Bad status code: " ++ code ++ " for node: " ++ node ++ " with description " ++ doc

/-- Python rendering `str(KeyError(k))` produced when `DATA_TYPES` misses:
the key wrapped in single quotes. -/
def keyErrorText (k : String) : String := "\x27" ++ k ++ "\x27"

/-- Embedding of `TelemetryEntry({config['key']: data}, ts=timestamp)`
(line 78): a single-key mapping with a timestamp. -/
structure TelemetryEntry where
  key : String
  value : ConvValue
  ts : Int
  deriving Repr, DecidableEq

/-- Result of `process_datapoint`: a `TelemetryEntry`, an attribute dict
`{config['key']: data}` (line 80), or Python `None` (the exception path,
line 82, and the fall-through when neither branch on lines 77-80 returns,
which cannot happen after a successful `DATA_TYPES` lookup). -/
inductive DpResult where
  | telemetry (e : TelemetryEntry)
  | attribute (key : String) (value : ConvValue)
  | noneR
  deriving Repr, DecidableEq

/-- Error slot of `process_datapoint`: `None`, Python `True` (line 67), or
`str(e)` from the exception handler (line 82). -/
inductive DpError where
  | noneE
  | trueE
  | msg (s : String)
  deriving Repr, DecidableEq

/-- Embedding of the timestamp resolution, lines 69-74:
`timestamp_location = config.get('timestampLocation', 'gateway').lower()`,
default to `basic_timestamp`, override with the source (resp. server)
timestamp only when so configured and the field `is not None`. -/
def resolve_timestamp (config : DpConfig) (val : DataValue) (basic_timestamp : Int) : Int :=
  let tsLoc := (config.timestampLocation.getD "gateway").toLower
  if tsLoc = "sourcetimestamp" ∧ val.sourceTimestampMs ≠ none then
    val.sourceTimestampMs.getD basic_timestamp
  else if tsLoc = "servertimestamp" ∧ val.serverTimestampMs ≠ none then
    val.serverTimestampMs.getD basic_timestamp
  else basic_timestamp

/-- Embedding of `OpcUaUplinkConverter.process_datapoint` (lines 54-82):
canonicalize the payload; if the result is `None` and the status is bad,
substitute the diagnostic text and set `error = True`; resolve the
timestamp; route by section.  Every exception raised inside the body —
including the `KeyError` from an unrecognized section — is caught by the
`except Exception` on line 81 and returned as `(None, str(e))`. -/
def process_datapoint (config : DpConfig) (val : DataValue) (basic_timestamp : Int) :
    DpResult × DpError :=
  match canonicalize val.value val.variantType with
  | .error e => (.noneR, .msg e)
  | .ok data0 =>
    let de : ConvValue × DpError :=
      if data0 = ConvValue.nullV ∧ val.statusCode.is_bad then
        (.strV (ERROR_MSG_TEMPLATE val.statusCode.name val.data_type val.statusCode.doc),
         .trueE)
      else (data0, .noneE)
    let timestamp := resolve_timestamp config val basic_timestamp
    match DATA_TYPES config.sect with
    | some .telemetry => (.telemetry ⟨config.key, de.1, timestamp⟩, de.2)
    | some .attributes => (.attribute config.key de.1, de.2)
    | none => (.noneR, .msg (keyErrorText config.sect))

/-- Modelled from the spec: `ConvertedData`
(`thingsboard_gateway/gateway/entities/converted_data.py`, not under
`src/`) owns an ordered sequence of telemetry entries and an ordered
sequence of attribute entries for one device, with derived datapoint
counts equal to the number of points held (each entry here carries exactly
one key). -/
structure ConvertedData where
  deviceName : String
  deviceType : String
  telemetry : List TelemetryEntry
  attributes : List (String × ConvValue)
  deriving Repr, DecidableEq

def ConvertedData.telemetry_datapoints_count (cd : ConvertedData) : Nat :=
  cd.telemetry.length

def ConvertedData.attributes_datapoints_count (cd : ConvertedData) : Nat :=
  cd.attributes.length

/-- Per-pair results of the conversion loop (lines 99-100): one
`process_datapoint` call per zipped `(config, val)` pair. -/
def convertResults (configs : List DpConfig) (values : List DataValue)
    (basic_timestamp : Int) : List (DpResult × DpError) :=
  (configs.zip values).map fun p => process_datapoint p.1 p.2 basic_timestamp

/-- Routing test of the loop body line 102 (`isinstance(result,
TelemetryEntry)`): the telemetry entry carried by a result, if any. -/
def telOf (r : DpResult × DpError) : Option TelemetryEntry :=
  match r.1 with
  | .telemetry e => some e
  | _ => none

/-- Routing test of the loop body line 104 (`isinstance(result, dict)`):
the attribute entry carried by a result, if any. -/
def attrOf (r : DpResult × DpError) : Option (String × ConvValue) :=
  match r.1 with
  | .attribute k v => some (k, v)
  | _ => none

/-- Embedding of the batching loop and batch assembly of
`OpcUaUplinkConverter.convert` (lines 94-109): non-`None` results are
routed by runtime shape — `TelemetryEntry` into the telemetry batch,
`dict` into the attribute batch — in pairing order; `None` results are
dropped. -/
def convert (deviceName deviceType : String) (configs : List DpConfig)
    (values : List DataValue) (basic_timestamp : Int) : ConvertedData :=
  let results := convertResults configs values basic_timestamp
  { deviceName := deviceName
    deviceType := deviceType
    telemetry := results.filterMap telOf
    attributes := results.filterMap attrOf }

/-- The statistics counts reported at lines 111-112:
`convertersAttrProduced` and `convertersTsProduced`, passed the converted
data's datapoint counts. -/
def reportedCounts (deviceName deviceType : String) (configs : List DpConfig)
    (values : List DataValue) (basic_timestamp : Int) : Nat × Nat :=
  let cd := convert deviceName deviceType configs values basic_timestamp
  (cd.attributes_datapoints_count, cd.telemetry_datapoints_count)

/-- Value carried by a non-`None` result: the single value of the
telemetry entry or of the attribute dict. -/
def resultValue : DpResult → Option ConvValue
  | .telemetry e => some e.value
  | .attribute _ v => some v
  | .noneR => none

/-- Whether a per-point result is non-`None` (the guard on line 101). -/
def nonNullResult (r : DpResult × DpError) : Bool :=
  match r.1 with
  | .noneR => false
  | _ => true

/-- Sample value envelope: a good-status `Int32`-like scalar rendering to
`"42"` under the default handler, used to instantiate theorems at concrete
inputs. -/
def sampleVal : DataValue :=
  { value := .pyObj (fun _ => .ok "42") (.ok "42")
    variantType := .Other
    statusCode := { name := "Good", doc := "ok", is_bad := false }
    data_type := "i=1"
    sourceTimestampMs := none
    serverTimestampMs := none }

/-- Sample value envelope with a `Null` variant payload and a bad status
code, as delivered for an unreadable node. -/
def sampleBadNullVal : DataValue :=
  { value := .pyObj (fun _ => .ok "x") (.ok "x")
    variantType := .Null
    statusCode := { name := "BadNodeIdUnknown", doc := "node unknown", is_bad := true }
    data_type := "ns=2;i=5"
    sourceTimestampMs := none
    serverTimestampMs := none }

/-- Sample value envelope with a `Null` variant payload and a good status,
and both optional timestamps present. -/
def sampleGoodNullVal : DataValue :=
  { value := .pyObj (fun _ => .ok "x") (.ok "x")
    variantType := .Null
    statusCode := { name := "Good", doc := "ok", is_bad := false }
    data_type := "ns=2;i=6"
    sourceTimestampMs := some 1700000000000
    serverTimestampMs := some 1700000000500 }

/-! ## Helper lemmas on list counters -/

theorem list_getD_set_self (l : List Nat) (i a : Nat) (h : i < l.length) :
    (l.set i a).getD i 0 = a := by
  induction l generalizing i with
  | nil => simp at h
  | cons x xs ih =>
    cases i with
    | zero => rfl
    | succ n =>
      have hn : n < xs.length := by simpa using h
      simpa [List.getD] using ih n hn

theorem list_sum_set_int (l : List Nat) (i a : Nat) (h : i < l.length) :
    (((l.set i a).sum : Nat) : Int) = (l.sum : Int) - (l.getD i 0 : Int) + (a : Int) := by
  induction l generalizing i with
  | nil => simp at h
  | cons x xs ih =>
    cases i with
    | zero =>
      simp [List.getD]
      omega
    | succ n =>
      have hn : n < xs.length := by simpa using h
      have := ih n hn
      simp [List.getD] at this ⊢
      omega

theorem sumInv_applyOp (s : LoggerSys) (op : LogOp) (h : sumInv s) :
    sumInv (applyOp s op) := by
  cases op with
  | newL =>
    simp only [applyOp, new_logger, sumInv] at *
    simpa using h
  | err i =>
    by_cases hi : i < s.errors.length
    · have hsum := list_sum_set_int s.errors i (s.errors.getD i 0 + 1) hi
      unfold sumInv at h ⊢
      simp only [applyOp, add_error, hi, if_pos]
      rw [hsum]
      omega
    · unfold sumInv at h ⊢
      simpa [applyOp, add_error, hi] using h
  | res i =>
    by_cases hi : i < s.errors.length
    · have hsum := list_sum_set_int s.errors i 0 hi
      unfold sumInv at h ⊢
      simp only [applyOp, reset_counters, hi, if_pos]
      rw [hsum]
      omega
    · unfold sumInv at h ⊢
      simpa [applyOp, reset_counters, hi] using h

theorem sumInv_runOps (ops : List LogOp) (s : LoggerSys) (h : sumInv s) :
    sumInv (runOps s ops) := by
  induction ops generalizing s with
  | nil => exact h
  | cons op ops ih => exact ih (applyOp s op) (sumInv_applyOp s op h)

theorem add_error_length (s : LoggerSys) (i : Nat) :
    (add_error s i).errors.length = s.errors.length := by
  unfold add_error
  by_cases hi : i < s.errors.length <;> simp [hi]

theorem runOps_err_replicate (N : Nat) (s : LoggerSys) (i : Nat)
    (h : i < s.errors.length) :
    (runOps s (List.replicate N (LogOp.err i))).errors.getD i 0
      = s.errors.getD i 0 + N := by
  induction N generalizing s with
  | zero => simp [runOps]
  | succ n ih =>
    rw [List.replicate_succ]
    show (runOps (applyOp s (LogOp.err i)) (List.replicate n (LogOp.err i))).errors.getD i 0
      = s.errors.getD i 0 + (n + 1)
    have hlen : i < (add_error s i).errors.length := by rw [add_error_length]; exact h
    have hstep : (add_error s i).errors.getD i 0 = s.errors.getD i 0 + 1 := by
      unfold add_error
      simp only [h, if_pos]
      exact list_getD_set_self s.errors i _ h
    have := ih (add_error s i) hlen
    simp only [applyOp]
    omega

/-- C1: every `error()`/`exception()` call increments the per-instance and
the global counter together by exactly 1; every `reset` zeroes the instance
counter and decrements the global counter by exactly that value; the
quiescent-point invariant — global total = sum of all live instances'
counters — is preserved by every sequence of constructions, error calls and
resets; and after N `error()` calls on an instance whose counter is 0, with
no intervening reset or rollover, the instance counter equals N. -/
theorem C1_error_counters (s : LoggerSys) (i N : Nat) (ops : List LogOp)
    (h : i < s.errors.length) :
    ((add_error s i).errors.getD i 0 = s.errors.getD i 0 + 1
      ∧ (add_error s i).all_errors_count = s.all_errors_count + 1)
    ∧ ((reset_counters s i).errors.getD i 0 = 0
      ∧ (reset_counters s i).all_errors_count
          = s.all_errors_count - (s.errors.getD i 0 : Int))
    ∧ (sumInv s → sumInv (runOps s ops))
    ∧ (s.errors.getD i 0 = 0 →
        (runOps s (List.replicate N (LogOp.err i))).errors.getD i 0 = N) := by
  refine ⟨⟨?_, ?_⟩, ⟨?_, ?_⟩, ?_, ?_⟩
  · unfold add_error
    simp only [h, if_pos]
    exact list_getD_set_self s.errors i _ h
  · unfold add_error
    simp [h]
  · unfold reset_counters
    simp only [h, if_pos]
    exact list_getD_set_self s.errors i 0 h
  · unfold reset_counters
    simp [h]
  · exact sumInv_runOps ops s
  · intro h0
    rw [runOps_err_replicate N s i h, h0]
    omega

/-- Witness for C1 at a concrete two-instance system satisfying the sum
invariant. -/
theorem C1_error_counters_witness :
    (1 < (LoggerSys.mk 2 [2, 0]).errors.length)
    ∧ (((add_error ⟨2, [2, 0]⟩ 1).errors.getD 1 0
          = (LoggerSys.mk 2 [2, 0]).errors.getD 1 0 + 1
        ∧ (add_error ⟨2, [2, 0]⟩ 1).all_errors_count
          = (LoggerSys.mk 2 [2, 0]).all_errors_count + 1)
      ∧ ((reset_counters ⟨2, [2, 0]⟩ 1).errors.getD 1 0 = 0
        ∧ (reset_counters ⟨2, [2, 0]⟩ 1).all_errors_count
            = (LoggerSys.mk 2 [2, 0]).all_errors_count
              - ((LoggerSys.mk 2 [2, 0]).errors.getD 1 0 : Int))
      ∧ (sumInv ⟨2, [2, 0]⟩ →
          sumInv (runOps ⟨2, [2, 0]⟩ [LogOp.newL, LogOp.err 0, LogOp.res 0]))
      ∧ ((LoggerSys.mk 2 [2, 0]).errors.getD 1 0 = 0 →
          (runOps ⟨2, [2, 0]⟩ (List.replicate 3 (LogOp.err 1))).errors.getD 1 0 = 3)) :=
  ⟨by decide,
   C1_error_counters ⟨2, [2, 0]⟩ 1 3 [LogOp.newL, LogOp.err 0, LogOp.res 0] (by decide)⟩

/-- C5 counterexample: a concrete run in which the debounced flush fires on
two ticks only 1 time unit apart.  From the initial state at time 0, the
tick at time 5 flushes (counter 0 differs from the initial recorded -1 and
5 units have elapsed since construction); one error arrives; the tick at
time 6 flushes again, although only 1 < 5 units have elapsed since the
previous flush — because `__previous_errors_sent_time` is never updated,
the code measures elapsed time since construction, refuting the claim that
the flush fires only when at least 5 units have elapsed since the last
flush. -/
theorem C5_counterexample :
    (tick (bumpError (tick (initTickState 0 0) 5)) 6).sent
        = [(5, 0, 0), (6, 1, 1)]
      ∧ ¬ ((6 : Int) - 5 ≥ 5) := by
  constructor
  · rfl
  · decide

/-- C5 (amended): on a non-stopped tick the debounced flush fires iff the
instance counter differs from the recorded `__previous_number_of_errors`
and at least 5 units have elapsed since `__previous_errors_sent_time` —
the send time recorded at construction, which no branch ever updates; when
it fires, {instance counter, global counter} is appended to the flush log,
the sent counter value is recorded, and nothing else changes (in
particular no rollover runs on the same tick); at most one flush entry is
appended per tick; and `prevSentTime` is invariant under every tick. -/
theorem C5_debounce_tick (s : TickState) (now : Int) (h : s.stopped = false) :
    (flushCond s now = true ↔ s.prevNum ≠ s.errors ∧ now - s.prevSentTime ≥ 5)
    ∧ (flushCond s now = true →
        tick s now = { s with prevNum := s.errors,
                              sent := s.sent ++ [(now, s.errors, s.all_errors)] })
    ∧ (tick s now).sent.length ≤ s.sent.length + 1
    ∧ (tick s now).prevSentTime = s.prevSentTime := by
  refine ⟨?_, ?_, ?_, ?_⟩
  · simp [flushCond]
  · intro hf
    simp [tick, h, hf]
  · unfold tick
    by_cases hf : flushCond s now <;> by_cases hr : rolloverCond s now <;>
      simp [h, hf, hr, resetFlush]
  · unfold tick
    by_cases hf : flushCond s now <;> by_cases hr : rolloverCond s now <;>
      simp [h, hf, hr, resetFlush]

/-- Witness for C5 (amended) at a concrete non-stopped state. -/
theorem C5_debounce_tick_witness :
    ((initTickState 0 0).stopped = false)
    ∧ ((flushCond (initTickState 0 0) 5 = true
          ↔ (initTickState 0 0).prevNum ≠ (initTickState 0 0).errors
            ∧ (5 : Int) - (initTickState 0 0).prevSentTime ≥ 5)
      ∧ (flushCond (initTickState 0 0) 5 = true →
          tick (initTickState 0 0) 5
            = { initTickState 0 0 with
                  prevNum := (initTickState 0 0).errors,
                  sent := (initTickState 0 0).sent
                    ++ [(5, (initTickState 0 0).errors, (initTickState 0 0).all_errors)] })
      ∧ (tick (initTickState 0 0) 5).sent.length ≤ (initTickState 0 0).sent.length + 1
      ∧ (tick (initTickState 0 0) 5).prevSentTime = (initTickState 0 0).prevSentTime) :=
  ⟨rfl, C5_debounce_tick (initTickState 0 0) 5 rfl⟩

/-- C6: on a non-stopped tick where the debounce branch does not fire and
60 units have elapsed since `_start_time`, the rollover runs `reset()` and
restarts the timer: afterwards the instance counter is 0, the global
counter has decreased by exactly the pre-rollover instance value, the
zeroed value (with the decremented global) is flushed, and `_start_time`
becomes the current time. -/
theorem C6_rollover (s : TickState) (now : Int) (h : s.stopped = false)
    (hf : flushCond s now = false) (hr : rolloverCond s now = true) :
    (tick s now).errors = 0
    ∧ (tick s now).all_errors = s.all_errors - s.errors
    ∧ (tick s now).sent = s.sent ++ [(now, 0, s.all_errors - s.errors)]
    ∧ (tick s now).startTime = now := by
  simp [tick, h, hf, hr, resetFlush]

/-- Witness for C6: a state 60 units after construction with 4 errors
already flushed (so the debounce condition is false). -/
theorem C6_rollover_witness :
    ((TickState.mk 4 9 4 0 0 false []).stopped = false
      ∧ flushCond (TickState.mk 4 9 4 0 0 false []) 60 = false
      ∧ rolloverCond (TickState.mk 4 9 4 0 0 false []) 60 = true)
    ∧ ((tick (TickState.mk 4 9 4 0 0 false []) 60).errors = 0
      ∧ (tick (TickState.mk 4 9 4 0 0 false []) 60).all_errors = 9 - 4
      ∧ (tick (TickState.mk 4 9 4 0 0 false []) 60).sent = [] ++ [(60, 0, 9 - 4)]
      ∧ (tick (TickState.mk 4 9 4 0 0 false []) 60).startTime = 60) :=
  ⟨⟨rfl, by decide, by decide⟩,
   C6_rollover (TickState.mk 4 9 4 0 0 false []) 60 rfl (by decide) (by decide)⟩

theorem stopFlushWait_all_true (fuel k : Nat) :
    stopFlushWaitExitsWithin (fun _ => true) k fuel = false := by
  induction fuel generalizing k with
  | zero => rfl
  | succ n ih => simpa [stopFlushWaitExitsWithin] using ih (k + 1)

theorem stopFlushWait_exits_of_clear (flag : Nat → Bool) :
    ∀ n k, flag (k + n) = false → stopFlushWaitExitsWithin flag k (n + 1) = true := by
  intro n
  induction n with
  | zero =>
    intro k hk
    have hk0 : flag k = false := by simpa using hk
    simp [stopFlushWaitExitsWithin, hk0]
  | succ m ih =>
    intro k hk
    unfold stopFlushWaitExitsWithin
    by_cases hf : flag k
    · simp only [hf, if_pos]
      exact ih (k + 1) (by rw [Nat.add_comm k (m + 1)] at hk
                           rw [Nat.add_comm (k + 1) m]
                           simpa [Nat.add_assoc, Nat.add_comm, Nat.add_left_comm] using hk)
    · simp [hf]

theorem stopFlushWait_clear_of_exits (flag : Nat → Bool) :
    ∀ fuel k, stopFlushWaitExitsWithin flag k fuel = true → ∃ n, flag n = false := by
  intro fuel
  induction fuel with
  | zero => intro k h; exact absurd h (by simp [stopFlushWaitExitsWithin])
  | succ m ih =>
    intro k h
    by_cases hf : flag k
    · exact ih (k + 1) (by simpa [stopFlushWaitExitsWithin, hf] using h)
    · exact ⟨k, by simpa using hf⟩

/-- C4 counterexample: when the `_is_on_init_state` flag is never cleared —
which is exactly the situation where the gateway never acquires a
`tb_client`, i.e. the transport never becomes ready — the wait loop at the
head of `_send_error_count` exits within no finite number of polls, so the
final flush performed synchronously by `stop()` never returns: the flush
path contains no timeout. -/
theorem C4_counterexample : ¬ stopFlushTerminates (fun _ => true) := by
  intro ⟨fuel, hf⟩
  rw [stopFlushWait_all_true fuel 0] at hf
  exact Bool.noConfusion hf

/-- C4 (amended): `stop()` does perform its final reset-and-flush
synchronously, but the readiness wait inside the flush path is an
unbounded poll with no timeout: it terminates exactly when the
`_is_on_init_state` flag is eventually cleared, and therefore `stop()`
hangs forever whenever the transport never becomes ready. -/
theorem C4_stop_flush_unbounded (flag : Nat → Bool) :
    stopFlushTerminates flag ↔ ∃ n, flag n = false := by
  constructor
  · intro ⟨fuel, hf⟩
    exact stopFlushWait_clear_of_exits flag fuel 0 hf
  · intro ⟨n, hn⟩
    exact ⟨n + 1, stopFlushWait_exits_of_clear flag n 0 (by simpa using hn)⟩

/-- Witness for C4 (amended): a readiness trace cleared at the third poll
does let the stop flush terminate. -/
theorem C4_stop_flush_unbounded_witness :
    stopFlushTerminates (fun n => decide (n < 2)) :=
  (C4_stop_flush_unbounded (fun n => decide (n < 2))).mpr ⟨2, by decide⟩

/-- C2: a datapoint whose canonicalized value is `None` and whose status is
bad yields, for either recognized section, a non-`None` result whose
carried value is exactly the `ERROR_MSG_TEMPLATE` text instantiated with
the status's symbolic code, the node identity (`val.data_type`), and the
status description, with `error = True`. -/
theorem C2_bad_status_message (config : DpConfig) (val : DataValue) (ts : Int)
    (hnull : canonicalize val.value val.variantType = .ok .nullV)
    (hbad : val.statusCode.is_bad = true)
    (hsect : (DATA_TYPES config.sect).isSome = true) :
    resultValue (process_datapoint config val ts).1
      = some (.strV (ERROR_MSG_TEMPLATE val.statusCode.name val.data_type
          val.statusCode.doc))
    ∧ (process_datapoint config val ts).2 = DpError.trueE
    ∧ (process_datapoint config val ts).1 ≠ DpResult.noneR := by
  cases hd : DATA_TYPES config.sect with
  | none => rw [hd] at hsect; exact absurd hsect (by simp)
  | some t =>
    cases t <;> simp [process_datapoint, hnull, hbad, hd, resultValue]

/-- Witness for C2 at a concrete bad-status null-payload datapoint routed
to the timeseries section. -/
theorem C2_bad_status_message_witness :
    (canonicalize sampleBadNullVal.value sampleBadNullVal.variantType = .ok .nullV
      ∧ sampleBadNullVal.statusCode.is_bad = true
      ∧ (DATA_TYPES (DpConfig.mk "timeseries" "k" none).sect).isSome = true)
    ∧ (resultValue (process_datapoint ⟨"timeseries", "k", none⟩ sampleBadNullVal 0).1
        = some (.strV (ERROR_MSG_TEMPLATE sampleBadNullVal.statusCode.name
            sampleBadNullVal.data_type sampleBadNullVal.statusCode.doc))
      ∧ (process_datapoint ⟨"timeseries", "k", none⟩ sampleBadNullVal 0).2
          = DpError.trueE
      ∧ (process_datapoint ⟨"timeseries", "k", none⟩ sampleBadNullVal 0).1
          ≠ DpResult.noneR) :=
  ⟨⟨rfl, rfl, rfl⟩,
   C2_bad_status_message ⟨"timeseries", "k", none⟩ sampleBadNullVal 0 rfl rfl rfl⟩

/-- C3 counterexample: a config whose section is neither `"timeseries"`
nor `"attributes"` does not propagate the configuration error — the
`KeyError` raised by the `DATA_TYPES` lookup is caught by the catch-all
handler on line 81 and swallowed into exactly the per-point
`(None, error-text)` result the claim excludes. -/
theorem C3_counterexample :
    process_datapoint ⟨"bogus", "k", none⟩ sampleVal 0
      = (DpResult.noneR, DpError.msg (keyErrorText "bogus")) := rfl

/-- C3 (amended): for every config whose section is unrecognized, the
resulting `KeyError` is swallowed by the catch-all `except` into a
per-point `(None, error-text)` result; the configuration error never
propagates out of `process_datapoint`. -/
theorem C3_unrecognized_section_swallowed (config : DpConfig) (val : DataValue)
    (ts : Int) (hsect : DATA_TYPES config.sect = none) :
    (process_datapoint config val ts).1 = DpResult.noneR
    ∧ ∃ m, (process_datapoint config val ts).2 = DpError.msg m := by
  unfold process_datapoint
  cases hc : canonicalize val.value val.variantType with
  | error e => exact ⟨rfl, e, rfl⟩
  | ok d => exact ⟨by simp [hsect], keyErrorText config.sect, by simp [hsect]⟩

/-- Witness for C3 (amended) at a concrete unrecognized section. -/
theorem C3_unrecognized_section_swallowed_witness :
    DATA_TYPES (DpConfig.mk "bogus" "k" none).sect = none
    ∧ ((process_datapoint ⟨"bogus", "k", none⟩ sampleVal 0).1 = DpResult.noneR
      ∧ ∃ m, (process_datapoint ⟨"bogus", "k", none⟩ sampleVal 0).2 = DpError.msg m) :=
  ⟨rfl, C3_unrecognized_section_swallowed ⟨"bogus", "k", none⟩ sampleVal 0 rfl⟩

theorem process_datapoint_telemetry_ts (config : DpConfig) (val : DataValue)
    (basic : Int) (e : TelemetryEntry)
    (he : (process_datapoint config val basic).1 = DpResult.telemetry e) :
    e.ts = resolve_timestamp config val basic := by
  unfold process_datapoint at he
  cases hc : canonicalize val.value val.variantType with
  | error m => rw [hc] at he; exact absurd he (by simp)
  | ok d =>
    rw [hc] at he
    cases hd : DATA_TYPES config.sect with
    | none => rw [hd] at he; exact absurd he (by simp)
    | some t =>
      cases t with
      | telemetry =>
        rw [hd] at he
        simp only [Prod.fst] at he
        have := DpResult.telemetry.inj he.symm
        rw [this]
      | attributes => rw [hd] at he; exact absurd he (by simp)

/-- C9: the timestamp of a produced entry defaults to the fallback; it is
overridden by the source (resp. server) timestamp only when
`timestampLocation` lowercases to `"sourcetimestamp"`
(resp. `"servertimestamp"`) and that optional field is present; a
configured but absent field leaves the fallback unchanged and causes no
failure; and every telemetry entry produced carries exactly the resolved
timestamp. -/
theorem C9_timestamp_resolution (config : DpConfig) (val : DataValue) (basic : Int) :
    (((config.timestampLocation.getD "gateway").toLower = "sourcetimestamp" →
        (∀ m, val.sourceTimestampMs = some m →
          resolve_timestamp config val basic = m)
        ∧ (val.sourceTimestampMs = none →
          resolve_timestamp config val basic = basic)))
    ∧ (((config.timestampLocation.getD "gateway").toLower = "servertimestamp" →
        (∀ m, val.serverTimestampMs = some m →
          resolve_timestamp config val basic = m)
        ∧ (val.serverTimestampMs = none →
          resolve_timestamp config val basic = basic)))
    ∧ ((config.timestampLocation.getD "gateway").toLower ≠ "sourcetimestamp" →
        (config.timestampLocation.getD "gateway").toLower ≠ "servertimestamp" →
        resolve_timestamp config val basic = basic)
    ∧ (∀ e, (process_datapoint config val basic).1 = DpResult.telemetry e →
        e.ts = resolve_timestamp config val basic) := by
  have hne : ("sourcetimestamp" : String) ≠ "servertimestamp" := by decide
  refine ⟨?_, ?_, ?_, ?_⟩
  · intro h
    constructor
    · intro m hm
      simp [resolve_timestamp, h, hm]
    · intro hm
      simp [resolve_timestamp, h, hm, hne]
  · intro h
    constructor
    · intro m hm
      have : (config.timestampLocation.getD "gateway").toLower ≠ "sourcetimestamp" := by
        rw [h]; exact fun hx => hne hx.symm
      simp [resolve_timestamp, h, hm, this]
    · intro hm
      simp [resolve_timestamp, h, hm, hne]
  · intro h1 h2
    simp [resolve_timestamp, h1, h2]
  · exact fun e he => process_datapoint_telemetry_ts config val basic e he

/-- Witness for C9 at a source-timestamp configuration with the source
field present. -/
theorem C9_timestamp_resolution_witness :
    ((((DpConfig.mk "timeseries" "k" (some "sourceTimestamp")).timestampLocation.getD
          "gateway").toLower = "sourcetimestamp" →
        (∀ m, sampleGoodNullVal.sourceTimestampMs = some m →
          resolve_timestamp ⟨"timeseries", "k", some "sourceTimestamp"⟩
            sampleGoodNullVal 99 = m)
        ∧ (sampleGoodNullVal.sourceTimestampMs = none →
          resolve_timestamp ⟨"timeseries", "k", some "sourceTimestamp"⟩
            sampleGoodNullVal 99 = 99)))
    ∧ ((((DpConfig.mk "timeseries" "k" (some "sourceTimestamp")).timestampLocation.getD
          "gateway").toLower = "servertimestamp" →
        (∀ m, sampleGoodNullVal.serverTimestampMs = some m →
          resolve_timestamp ⟨"timeseries", "k", some "sourceTimestamp"⟩
            sampleGoodNullVal 99 = m)
        ∧ (sampleGoodNullVal.serverTimestampMs = none →
          resolve_timestamp ⟨"timeseries", "k", some "sourceTimestamp"⟩
            sampleGoodNullVal 99 = 99)))
    ∧ (((DpConfig.mk "timeseries" "k" (some "sourceTimestamp")).timestampLocation.getD
          "gateway").toLower ≠ "sourcetimestamp" →
        ((DpConfig.mk "timeseries" "k" (some "sourceTimestamp")).timestampLocation.getD
          "gateway").toLower ≠ "servertimestamp" →
        resolve_timestamp ⟨"timeseries", "k", some "sourceTimestamp"⟩
          sampleGoodNullVal 99 = 99)
    ∧ (∀ e, (process_datapoint ⟨"timeseries", "k", some "sourceTimestamp"⟩
          sampleGoodNullVal 99).1 = DpResult.telemetry e →
        e.ts = resolve_timestamp ⟨"timeseries", "k", some "sourceTimestamp"⟩
          sampleGoodNullVal 99) :=
  C9_timestamp_resolution ⟨"timeseries", "k", some "sourceTimestamp"⟩ sampleGoodNullVal 99

/-- C10: a datapoint whose canonicalized value is `None` but whose status
is not bad still yields a non-`None` entry — a telemetry entry for the
timeseries section, an attribute entry for the attributes section — whose
carried value is `None` with `error = None`, and such a point contributes
one entry to the converted batch instead of being dropped. -/
theorem C10_null_value_good_status (dn dt : String) (config : DpConfig)
    (val : DataValue) (ts : Int)
    (hnull : canonicalize val.value val.variantType = .ok .nullV)
    (hgood : val.statusCode.is_bad = false) :
    (DATA_TYPES config.sect = some .telemetry →
      process_datapoint config val ts
        = (.telemetry ⟨config.key, .nullV, resolve_timestamp config val ts⟩, .noneE))
    ∧ (DATA_TYPES config.sect = some .attributes →
      process_datapoint config val ts = (.attribute config.key .nullV, .noneE))
    ∧ ((DATA_TYPES config.sect).isSome = true →
      nonNullResult (process_datapoint config val ts) = true
      ∧ resultValue (process_datapoint config val ts).1 = some .nullV
      ∧ (process_datapoint config val ts).2 = DpError.noneE
      ∧ (convert dn dt [config] [val] ts).telemetry.length
          + (convert dn dt [config] [val] ts).attributes.length = 1) := by
  refine ⟨?_, ?_, ?_⟩
  · intro hd
    simp [process_datapoint, hnull, hgood, hd]
  · intro hd
    simp [process_datapoint, hnull, hgood, hd]
  · intro hs
    cases hd : DATA_TYPES config.sect with
    | none => rw [hd] at hs; exact absurd hs (by simp)
    | some t =>
      cases t <;>
        simp [process_datapoint, convert, convertResults, hnull, hgood, hd,
          nonNullResult, resultValue, telOf, attrOf]

/-- Witness for C10 at a concrete good-status null-payload datapoint
routed to the attributes section. -/
theorem C10_null_value_good_status_witness :
    (canonicalize sampleGoodNullVal.value sampleGoodNullVal.variantType = .ok .nullV
      ∧ sampleGoodNullVal.statusCode.is_bad = false)
    ∧ ((DATA_TYPES (DpConfig.mk "attributes" "k" none).sect = some .telemetry →
        process_datapoint ⟨"attributes", "k", none⟩ sampleGoodNullVal 7
          = (.telemetry ⟨(DpConfig.mk "attributes" "k" none).key, .nullV,
              resolve_timestamp ⟨"attributes", "k", none⟩ sampleGoodNullVal 7⟩, .noneE))
      ∧ (DATA_TYPES (DpConfig.mk "attributes" "k" none).sect = some .attributes →
        process_datapoint ⟨"attributes", "k", none⟩ sampleGoodNullVal 7
          = (.attribute (DpConfig.mk "attributes" "k" none).key .nullV, .noneE))
      ∧ ((DATA_TYPES (DpConfig.mk "attributes" "k" none).sect).isSome = true →
        nonNullResult (process_datapoint ⟨"attributes", "k", none⟩ sampleGoodNullVal 7)
            = true
        ∧ resultValue (process_datapoint ⟨"attributes", "k", none⟩
            sampleGoodNullVal 7).1 = some .nullV
        ∧ (process_datapoint ⟨"attributes", "k", none⟩ sampleGoodNullVal 7).2
            = DpError.noneE
        ∧ (convert "d" "t" [⟨"attributes", "k", none⟩] [sampleGoodNullVal] 7).telemetry.length
            + (convert "d" "t" [⟨"attributes", "k", none⟩]
                [sampleGoodNullVal] 7).attributes.length = 1)) :=
  ⟨⟨rfl, rfl⟩,
   C10_null_value_good_status "d" "t" ⟨"attributes", "k", none⟩ sampleGoodNullVal 7 rfl rfl⟩

theorem batch_sizes_eq_countP (rs : List (DpResult × DpError)) :
    (rs.filterMap telOf).length + (rs.filterMap attrOf).length
      = rs.countP nonNullResult := by
  induction rs with
  | nil => rfl
  | cons r rs ih =>
    cases h : r.1 <;>
      simp [List.filterMap_cons, List.countP_cons, telOf, attrOf,
        nonNullResult, h, ih] <;> omega

theorem filterMap_map_sublist {α β γ : Type _} (f : α → Option β) (g : β → γ)
    (h : α → γ) (hfg : ∀ a b, f a = some b → g b = h a) :
    ∀ l : List α, ((l.filterMap f).map g).Sublist (l.map h) := by
  intro l
  induction l with
  | nil => simp
  | cons x xs ih =>
    cases hfx : f x with
    | none =>
      simpa [List.filterMap_cons, hfx] using ih.cons (h x)
    | some b =>
      have hb : g b = h x := hfg x b hfx
      simpa [List.filterMap_cons, hfx, hb] using ih.cons₂ (h x)

/-- C7: the combined size of the telemetry and attribute batches equals the
number of non-`None` per-point results; the reported attributes-produced
and timeseries-produced statistics counts equal exactly the number of
points emitted into each batch; and each batch lists its entries in input
pairing order — mapped back to result shapes, each batch is a sublist of
the ordered per-point result sequence. -/
theorem C7_batch_counts_and_order (dn dt : String) (configs : List DpConfig)
    (values : List DataValue) (ts : Int) :
    (convert dn dt configs values ts).telemetry.length
        + (convert dn dt configs values ts).attributes.length
      = (convertResults configs values ts).countP nonNullResult
    ∧ (reportedCounts dn dt configs values ts).1
        = (convert dn dt configs values ts).attributes.length
    ∧ (reportedCounts dn dt configs values ts).2
        = (convert dn dt configs values ts).telemetry.length
    ∧ ((convert dn dt configs values ts).telemetry.map DpResult.telemetry).Sublist
        ((convertResults configs values ts).map Prod.fst)
    ∧ ((convert dn dt configs values ts).attributes.map
          (fun kv => DpResult.attribute kv.1 kv.2)).Sublist
        ((convertResults configs values ts).map Prod.fst) := by
  refine ⟨?_, rfl, rfl, ?_, ?_⟩
  · exact batch_sizes_eq_countP (convertResults configs values ts)
  · refine filterMap_map_sublist telOf DpResult.telemetry Prod.fst ?_ _
    intro a b hab
    cases ha : a.1 <;> simp [telOf, ha] at hab <;> simp [ha, hab]
  · refine filterMap_map_sublist attrOf (fun kv => DpResult.attribute kv.1 kv.2)
      Prod.fst ?_ _
    intro a b hab
    cases ha : a.1 <;> simp [attrOf, ha] at hab <;> simp [ha, ← hab]

theorem zip_take_min {α β : Type _} (l1 : List α) (l2 : List β) :
    l1.zip l2 = (l1.take (min l1.length l2.length)).zip
      (l2.take (min l1.length l2.length)) := by
  induction l1 generalizing l2 with
  | nil => simp
  | cons x xs ih =>
    cases l2 with
    | nil => simp
    | cons y ys =>
      simp only [List.length_cons, Nat.succ_min_succ, List.take_succ_cons,
        List.zip_cons_cons]
      rw [← ih ys]

/-- C8: `convert` processes exactly `min(len(configs), len(values))`
datapoints — `zip` stops at the shorter sequence — and the whole
conversion result is unchanged when the excess elements of the longer
sequence are discarded beforehand: they are silently ignored. -/
theorem C8_zip_truncation (dn dt : String) (configs : List DpConfig)
    (values : List DataValue) (ts : Int) :
    (convertResults configs values ts).length = min configs.length values.length
    ∧ convert dn dt configs values ts
        = convert dn dt (configs.take (min configs.length values.length))
            (values.take (min configs.length values.length)) ts := by
  constructor
  · simp [convertResults]
  · unfold convert convertResults
    rw [← zip_take_min]
